import Mathlib

/-!
Verification of the StoreVisualizer visibility engine.

The planar geometry of the source (shapely over EPSG:3857 coordinates) is
embedded exactly over the rationals: every shapely predicate used by the
code is modelled by an exact rational computation.

  * `los.intersects(obs.buffer(tol))` holds iff the Euclidean distance from
    the sightline segment to the polygon `obs` is at most `tol` (a buffer is
    the closed Minkowski sum with a disk), which is encoded without square
    roots as `sqDistSegPoly los obs ≤ tol ^ 2`.
  * `poly.contains(p)` holds iff `p` lies in the interior of the polygon,
    `poly.intersects(p)` iff `p` lies in its closure; both are encoded by an
    exact ray-casting parity test plus an on-boundary test.
  * `segment.interpolate(t, normalized=True)` is arc-length interpolation;
    linear features are embedded as straight two-point LineStrings, on which
    arc-length interpolation is exactly affine interpolation (and remains
    rational).  Euclidean lengths themselves (used only by the truncation
    bound) are real numbers, `Real.sqrt` of the rational squared distances.

Fallible shapely calls (the `LineString` constructor raises on a single
coordinate) are embedded in `Except`.
-/

namespace StoreViz

set_option maxRecDepth 1024

/-- A planar point (projected EPSG:3857 coordinates, modelled exactly). -/
abbrev Pt : Type := ℚ × ℚ

/-- A straight segment between two planar points. -/
abbrev Seg : Type := Pt × Pt

/-- A polygon, given by its list of vertices (implicitly closed). -/
abbrev Polygon : Type := List Pt

/-- Coordinate-wise difference of two points. -/
def sub (p q : Pt) : Pt := (p.1 - q.1, p.2 - q.2)

/-- Dot product. -/
def dot (u v : Pt) : ℚ := u.1 * v.1 + u.2 * v.2

/-- Cross product (z-component). -/
def cross (u v : Pt) : ℚ := u.1 * v.2 - u.2 * v.1

/-- Squared Euclidean distance between two points. -/
def sqDistPP (p q : Pt) : ℚ := dot (sub p q) (sub p q)

/-- Clamp a parameter into [0, 1]. -/
def clamp01 (t : ℚ) : ℚ := max 0 (min 1 t)

/-- The point at parameter `t` on a segment (no clamping). -/
def pointOnSeg (s : Seg) (t : ℚ) : Pt :=
  (s.1.1 + t * (s.2.1 - s.1.1), s.1.2 + t * (s.2.2 - s.1.2))

/-- Parameter of the point of a segment closest to `p` (clamped projection). -/
def closestParam (p : Pt) (s : Seg) : ℚ :=
  let den := sqDistPP s.1 s.2
  if den = 0 then 0 else clamp01 (dot (sub p s.1) (sub s.2 s.1) / den)

/-- Squared distance from a point to a segment. -/
def sqDistPointSeg (p : Pt) (s : Seg) : ℚ :=
  sqDistPP p (pointOnSeg s (closestParam p s))

/-- Orientation of `c` relative to the directed line `a → b`. -/
def orient (a b c : Pt) : ℚ := cross (sub b a) (sub c a)

/-- Bounding boxes of segments `ab` and `cd` overlap. -/
def boxOverlap (a b c d : Pt) : Bool :=
  decide (max (min a.1 b.1) (min c.1 d.1) ≤ min (max a.1 b.1) (max c.1 d.1)) &&
  decide (max (min a.2 b.2) (min c.2 d.2) ≤ min (max a.2 b.2) (max c.2 d.2))

/-- Exact segment-segment intersection test (closed segments, touching
counts), the standard orientation predicate with the all-collinear case
settled by bounding boxes. -/
def segsIntersect (s₁ s₂ : Seg) : Bool :=
  let o₁ := orient s₁.1 s₁.2 s₂.1
  let o₂ := orient s₁.1 s₁.2 s₂.2
  let o₃ := orient s₂.1 s₂.2 s₁.1
  let o₄ := orient s₂.1 s₂.2 s₁.2
  if o₁ = 0 ∧ o₂ = 0 ∧ o₃ = 0 ∧ o₄ = 0 then
    boxOverlap s₁.1 s₁.2 s₂.1 s₂.2
  else
    decide (o₁ * o₂ ≤ 0) && decide (o₃ * o₄ ≤ 0)

/-- Squared distance between two segments (0 when they intersect, otherwise
the least of the four endpoint-to-segment distances). -/
def sqDistSegSeg (s₁ s₂ : Seg) : ℚ :=
  if segsIntersect s₁ s₂ then 0
  else
    min (min (sqDistPointSeg s₁.1 s₂) (sqDistPointSeg s₁.2 s₂))
        (min (sqDistPointSeg s₂.1 s₁) (sqDistPointSeg s₂.2 s₁))

/-- The boundary edges of a polygon. -/
def polyEdges (poly : Polygon) : List Seg := poly.zip (poly.rotate 1)

/-- The edges of an open polyline. -/
def lineEdges (line : List Pt) : List Seg := line.zip line.tail

/-- The point lies on the boundary of the polygon. -/
def pointOnBoundary (poly : Polygon) (p : Pt) : Bool :=
  (polyEdges poly).any (fun e => sqDistPointSeg p e = 0)

/-- A horizontal ray from `p` crosses the edge `e` (standard crossing rule,
exact over ℚ; the rule only divides when the edge straddles `p`'s height, so
the divisor is nonzero whenever the test is reached). -/
def rayCrosses (p : Pt) (e : Seg) : Bool :=
  (decide (e.1.2 > p.2) != decide (e.2.2 > p.2)) &&
  decide (p.1 < e.1.1 + (p.2 - e.1.2) * (e.2.1 - e.1.1) / (e.2.2 - e.1.2))

/-- Ray-casting parity: the point is enclosed by the polygon's boundary. -/
def rayCastOdd (poly : Polygon) (p : Pt) : Bool :=
  ((polyEdges poly).countP (rayCrosses p)) % 2 == 1

/-- shapely `poly.contains(point)`: the point lies in the interior. -/
def polyContainsPoint (poly : Polygon) (p : Pt) : Bool :=
  rayCastOdd poly p && ! pointOnBoundary poly p

/-- shapely `poly.intersects(point)`: the point lies in the closure. -/
def polyIntersectsPoint (poly : Polygon) (p : Pt) : Bool :=
  rayCastOdd poly p || pointOnBoundary poly p

/-- Least element of a list of rationals (0 for the empty list; only applied
to nonempty edge lists). -/
def minQ : List ℚ → ℚ
  | [] => 0
  | x :: xs => xs.foldl min x

/-- Squared distance from a segment to a polygon: 0 when they meet (an
endpoint inside the closure, or a boundary edge crossed), otherwise the
least squared distance to a boundary edge. -/
def sqDistSegPoly (s : Seg) (poly : Polygon) : ℚ :=
  if polyIntersectsPoint poly s.1 || polyIntersectsPoint poly s.2 ||
      (polyEdges poly).any (fun e => segsIntersect s e) then 0
  else minQ ((polyEdges poly).map (fun e => sqDistSegSeg s e))

/-- shapely `seg.intersects(obs.buffer(tol))`: the closed `tol`-buffer of the
polygon meets the segment iff the segment-to-polygon distance is ≤ `tol`,
encoded with squared distances. -/
def intersectsBuffered (s : Seg) (poly : Polygon) (tol : ℚ) : Bool :=
  sqDistSegPoly s poly ≤ tol ^ 2

/-- Two polylines intersect iff some pair of their edges intersects. -/
def polylinesIntersect (g₁ g₂ : List Pt) : Bool :=
  (lineEdges g₁).any (fun e₁ => (lineEdges g₂).any (fun e₂ => segsIntersect e₁ e₂))

/-- Squared distance from a point to a polyline (least over its edges; the
point-to-point distance for a one-point line). -/
def sqDistToPolyline (p : Pt) : List Pt → ℚ
  | [] => 0
  | [q] => sqDistPP p q
  | q :: r :: rest => min (sqDistPointSeg p (q, r)) (sqDistToPolyline p (r :: rest))

/-- shapely `segment.interpolate(t, normalized=True)` on a straight two-point
LineString: affine interpolation, with the parameter clamped into [0,1]
exactly as shapely clamps normalized distances. -/
def interpolate (s : Seg) (t : ℚ) : Pt := pointOnSeg s (clamp01 t)

/-- The line of sight from the store to a sample point is clear of every
obstacle expanded by `tol` (the body of the per-point visibility tests). -/
def lineOfSightClear (store p : Pt) (obstacles : List Polygon) (tol : ℚ) : Bool :=
  ! obstacles.any (fun obs => intersectsBuffered (store, p) obs tol)

/-- `TrafficVisibility.is_point_visible` / `StoreVisibility.is_point_visible`:
the sightline misses every obstacle buffered by the hard-coded 0.1 tolerance. -/
def is_point_visible (storefront samplePoint : Pt) (obstacles : List Polygon) : Bool :=
  ! obstacles.any (fun obs => intersectsBuffered (storefront, samplePoint) obs (1/10))

/-- Number of sampling intervals (`num_samples = 50` throughout the source). -/
def num_samples : ℕ := 50

/-- The normalized sample parameters `i / n` for `i = 0 .. n`, as scanned by
`SidewalkVisibility.is_segment_visible` and
`TrafficVisibility.filter_visible_segments`. -/
def sampleParams (n : ℕ) : List ℚ :=
  (List.range (n + 1)).map (fun i : ℕ => (i : ℚ) / (n : ℚ))

/-- The parameters scanned per segment by
`StoreVisibility.filter_visible_segments`: the two endpoints first
(`seg.coords[0]`, `seg.coords[-1]`, i.e. t = 0 and t = 1), then the interior
loop `i / (num_samples - 1)` for `i = 0 .. num_samples - 1`. -/
def svScanParams (n : ℕ) : List ℚ :=
  [0, 1] ++ (List.range n).map (fun i : ℕ => (i : ℚ) / ((n : ℚ) - 1))

/-- The 51 sample points of the sidewalk sampler on a segment. -/
def samplePoints (seg : Seg) : List Pt :=
  (sampleParams num_samples).map (interpolate seg)

/-- The sample points of a segment judged visible at tolerance `tol`
(in sampling order). -/
def visiblePoints (store : Pt) (obstacles : List Polygon) (tol : ℚ) (seg : Seg) : List Pt :=
  (samplePoints seg).filter (fun p => lineOfSightClear store p obstacles tol)

/-- Error raised by the shapely `LineString` constructor. -/
inductive GeomError : Type
  | singlePointLineString
deriving DecidableEq

/-- The shapely `LineString` constructor: a single coordinate raises
(LineStrings need 0 or ≥ 2 points). -/
def mkLineString (ps : List Pt) : Except GeomError (List Pt) :=
  if ps.length = 1 then .error .singlePointLineString else .ok ps

/-- `SidewalkVisibility.is_segment_visible`: a strict pass collecting the
sample points whose sightline misses every obstacle buffered by 0.5; if any
were found, their LineString is returned; otherwise a relaxed second pass
repeats the scan with no buffer (appending to the still-empty list) and its
LineString is returned when nonempty, else `None`. -/
def is_segment_visible (store : Pt) (obstacles : List Polygon) (segment : Seg) :
    Except GeomError (Option (List Pt)) :=
  let pass1 := (List.range (num_samples + 1)).foldl (fun acc i =>
    let samplePoint := interpolate segment ((i : ℚ) / (num_samples : ℚ))
    if obstacles.any (fun obs => intersectsBuffered (store, samplePoint) obs (1/2)) then acc
    else acc ++ [samplePoint]) []
  if 0 < pass1.length then (mkLineString pass1).map some
  else
    let pass2 := (List.range (num_samples + 1)).foldl (fun acc i =>
      let samplePoint := interpolate segment ((i : ℚ) / (num_samples : ℚ))
      if obstacles.any (fun obs => intersectsBuffered (store, samplePoint) obs 0) then acc
      else acc ++ [samplePoint]) pass1
    if 0 < pass2.length then (mkLineString pass2).map some
    else .ok none

/-- `TrafficVisibility.filter_visible_segments`: keep a segment as soon as
one of its `num_samples + 1` sample points is visible (the loop's early
`break` is equivalent to `List.any` over the scanned parameters). -/
def filter_visible_segments (store : Pt) (obstacles : List Polygon)
    (segs : List Seg) (n : ℕ) : List Seg :=
  segs.filter (fun seg =>
    (sampleParams n).any (fun t => is_point_visible store (interpolate seg t) obstacles))

/-- `StoreVisibility.filter_visible_segments`: endpoints are checked first,
then the interior loop scans `i / (n - 1)` for `i = 0 .. n - 1`; the segment
is kept as soon as any scanned point is visible. -/
def filter_visible_segments_sv (store : Pt) (obstacles : List Polygon)
    (segs : List Seg) (n : ℕ) : List Seg :=
  segs.filter (fun seg =>
    (svScanParams n).any (fun t => is_point_visible store (interpolate seg t) obstacles))

/-- `fetch_obstacles` (traffic/sidewalk): the store's own building is the
set of fetched obstacles whose geometry contains the store point. -/
def store_building (obstacles : List Polygon) (store_point : Pt) : List Polygon :=
  obstacles.filter (fun o => polyContainsPoint o store_point)

/-- `fetch_obstacles` (traffic/sidewalk): the blocking set keeps the fetched
obstacles that do not intersect the store point
(`self.obstacles = self.obstacles[~store_building_mask]`). -/
def blocking_obstacles (obstacles : List Polygon) (store_point : Pt) : List Polygon :=
  obstacles.filter (fun o => ! polyIntersectsPoint o store_point)

/-- shapely `geometry.distance(store) <= radius`, encoded without square
roots: a nonnegative distance is ≤ `radius` iff `radius` is nonnegative and
the squared distance is ≤ `radius ^ 2`. -/
def withinRadius (store : Pt) (geom : List Pt) (radius : ℚ) : Bool :=
  decide (0 ≤ radius) && decide (sqDistToPolyline store geom ≤ radius ^ 2)

/-- `nearby_data` (traffic/StoreVisualizer): the stable filter keeping the
features whose planar distance to the store is at most `radius`. -/
def nearby_data (store : Pt) (gdf : List (List Pt)) (radius : ℚ) : List (List Pt) :=
  gdf.filter (fun f => withinRadius store f radius)

/-- A row of the traffic dataset: geometry plus the two traffic columns. -/
structure TrafficRecord : Type where
  geom : List Pt
  trips_volume : ℚ
  trips_sample_count : ℚ
deriving DecidableEq

/-- `calculate_car_traffic`: inner spatial join of the dataset with the
visible segments on `intersects` (one matched row per intersecting pair),
zero sample counts replaced by 1e-6, per-row traffic
`trips_volume / trips_sample_count * 1.4`, summed; empty inputs and empty
joins return 0. -/
def calculate_car_traffic (gdf : List TrafficRecord) (visible_segments : List (List Pt)) : ℚ :=
  if visible_segments.isEmpty then 0
  else
    let matched := gdf.flatMap (fun r =>
      (visible_segments.filter (fun g => polylinesIntersect r.geom g)).map (fun _ => r))
    if matched.isEmpty then 0
    else
      let replaced := matched.map (fun r =>
        if r.trips_sample_count = 0 then ⟨r.geom, r.trips_volume, 1/1000000⟩ else r)
      (replaced.map (fun r => r.trips_volume / r.trips_sample_count * (7/5))).sum

/-- The exposure formula exactly as the specification words it,
`(tripsVolume / max(tripsSampleCount, ε)) * 1.4` with ε = 1e-6, for
comparison against the code's replace-zeros semantics. -/
def claim_exposure (r : TrafficRecord) : ℚ :=
  r.trips_volume / max r.trips_sample_count (1/1000000) * (7/5)

/-- Python truthiness of a stored coordinate: `not x` is true for a missing
coordinate and for the number 0. -/
def coordFalsy : Option ℚ → Bool
  | none => true
  | some x => decide (x = 0)

/-- The guard opening `fetch_obstacles`:
`if not self.store_latitude or not self.store_longitude: raise ValueError`. -/
def fetch_obstacles_guard (lat lon : Option ℚ) : Except String Unit :=
  if coordFalsy lat || coordFalsy lon then .error "Store coordinates not set" else .ok ()

/-- Euclidean length of a segment (real-valued). -/
noncomputable def segLen (p q : Pt) : ℝ := Real.sqrt (sqDistPP p q)

/-- Euclidean length of a polyline through the given points. -/
noncomputable def polylineLen : List Pt → ℝ
  | p :: q :: rest => segLen p q + polylineLen (q :: rest)
  | _ => 0

/-- Concrete store used in the C5 scenario. -/
def s5store : Pt := (0, 0)

/-- Concrete feature endpoints for the C5 scenario: a straight east-west
feature 20 m north of the store. -/
def s5a : Pt := (-10, 20)

/-- Second endpoint of the C5 feature. -/
def s5b : Pt := (10, 20)

/-- Concrete obstacle for the C5 scenario: a 2×2 square centered 10 m north
of the store; it blocks the central sightlines but not the endpoint ones. -/
def s5obs : Polygon := [(-1, 9), (1, 9), (1, 11), (-1, 11)]

/-- Concrete obstacle for the C6 failing input: a thin strip that blocks all
sightlines except the one to the first sample point. -/
def c6obs : Polygon := [(1, 1/2), (50, 1/2), (50, 3/5), (1, 3/5)]

/-- Concrete obstacle witnessing the buffer-width mismatch: a square whose
distance to the sightline is 0.3, between the 0.1 and 0.5 tolerances. -/
def c2obs : Polygon := [(3/10, 0), (13/10, 0), (13/10, 1), (3/10, 1)]

/-- Concrete square obstacle used for the partition claims. -/
def c7square : Polygon := [(0, 0), (2, 0), (2, 2), (0, 2)]

/-- A feature at planar distance exactly 200 from the origin. -/
def c8in : List Pt := [(200, 0), (200, 5)]

/-- A feature at planar distance 200.1 from the origin. -/
def c8out : List Pt := [(2001/10, 0), (2001/10, 5)]

/-- A feature passing exactly through the store point. -/
def c8thru : List Pt := [(0, 0), (1, 0)]

/-- Geometry shared by a traffic record and a visible segment (they
intersect, being identical). -/
def c9geom : List Pt := [(0, 0), (1, 0)]

/-- Matched record with a zero sample count (the spec's ε scenario). -/
def c9zeroRec : TrafficRecord := ⟨c9geom, 14, 0⟩

/-- Matched record whose sample count is positive but below ε = 1e-6, where
`replace(0, 1e-6)` and `max(·, 1e-6)` disagree. -/
def c9smallRec : TrafficRecord := ⟨c9geom, 1, 1/2000000⟩

/-- Accumulating only the unblocked values of `f` over a list, as the
sampling loops do, is filtering the mapped list. -/
theorem foldl_select {α β : Type} (f : α → β) (blocked : β → Bool) :
    ∀ (l : List α) (init : List β),
      l.foldl (fun acc i => if blocked (f i) then acc else acc ++ [f i]) init
        = init ++ (l.map f).filter (fun p => ! blocked p) := by
  intro l
  induction l with
  | nil => intro init; simp
  | cons a l ih =>
    intro init
    simp only [List.foldl_cons, List.map_cons, List.filter_cons]
    by_cases h : blocked (f a)
    · simp [h, ih init]
    · simp [h, ih (init ++ [f a])]

/-- The visible-point list is the filter of the mapped parameter list. -/
theorem visiblePoints_eq (store : Pt) (obstacles : List Polygon) (tol : ℚ) (seg : Seg) :
    visiblePoints store obstacles tol seg
      = ((List.range (num_samples + 1)).map
          (fun i => interpolate seg ((i : ℚ) / (num_samples : ℚ)))).filter
          (fun p => ! obstacles.any (fun obs => intersectsBuffered (store, p) obs tol)) := by
  unfold visiblePoints samplePoints sampleParams
  rw [List.map_map]
  rfl

/-- One sampling pass of `is_segment_visible` appends exactly the visible
sample points at its tolerance. -/
theorem pass_eq (store : Pt) (obstacles : List Polygon) (seg : Seg) (tol : ℚ)
    (init : List Pt) :
    (List.range (num_samples + 1)).foldl (fun acc i =>
        if obstacles.any (fun obs =>
            intersectsBuffered (store, interpolate seg ((i : ℚ) / (num_samples : ℚ))) obs tol)
          then acc
        else acc ++ [interpolate seg ((i : ℚ) / (num_samples : ℚ))]) init
      = init ++ visiblePoints store obstacles tol seg := by
  rw [visiblePoints_eq]
  exact foldl_select (fun i : ℕ => interpolate seg ((i : ℚ) / (num_samples : ℚ)))
    (fun p => obstacles.any (fun obs => intersectsBuffered (store, p) obs tol))
    (List.range (num_samples + 1)) init

/-- `is_segment_visible` in terms of the two passes' visible-point lists:
the strict list when it is nonempty, else the relaxed list, else `None`. -/
theorem issv_eq (store : Pt) (obstacles : List Polygon) (seg : Seg) :
    is_segment_visible store obstacles seg =
      if visiblePoints store obstacles (1/2) seg = [] then
        (if visiblePoints store obstacles 0 seg = [] then .ok none
         else (mkLineString (visiblePoints store obstacles 0 seg)).map some)
      else (mkLineString (visiblePoints store obstacles (1/2) seg)).map some := by
  simp only [is_segment_visible]
  rw [pass_eq, pass_eq, List.nil_append]
  by_cases h1 : visiblePoints store obstacles (1/2) seg = []
  · rw [if_pos h1, h1]
    rw [if_neg (by simp), List.nil_append]
    by_cases h2 : visiblePoints store obstacles 0 seg = []
    · rw [if_pos h2, h2, if_neg (by simp)]
    · rw [if_neg h2, if_pos (List.length_pos.mpr h2)]
  · rw [if_neg h1, if_pos (List.length_pos.mpr h1)]

/-- A segment meeting the exact (unbuffered) polygon also meets any
buffered expansion of it. -/
theorem intersectsBuffered_zero_le (s : Seg) (poly : Polygon) (tol : ℚ)
    (h : intersectsBuffered s poly 0 = true) : intersectsBuffered s poly tol = true := by
  simp only [intersectsBuffered, decide_eq_true_eq] at h ⊢
  have h0 : ((0 : ℚ)) ^ 2 ≤ tol ^ 2 := by
    have := sq_nonneg tol
    simpa using this
  exact le_trans h h0

/-- A sample point whose sightline clears every obstacle buffered by some
tolerance also clears the exact (unbuffered) geometry. -/
theorem lineOfSightClear_mono (store p : Pt) (obstacles : List Polygon) (tol : ℚ)
    (h : lineOfSightClear store p obstacles tol = true) :
    lineOfSightClear store p obstacles 0 = true := by
  simp only [lineOfSightClear, Bool.not_eq_true', List.any_eq_false] at h ⊢
  intro obs hobs
  have hh := h obs hobs
  cases hzero : intersectsBuffered (store, p) obs 0
  · simp
  · exact absurd (intersectsBuffered_zero_le (store, p) obs tol hzero) hh

/-- C1: for every two-point linear feature, store and obstacle set, the
result of `is_segment_visible` is built from the strict pass's visible
points when that pass found any, and otherwise from the relaxed (tolerance
0) rescan of all sample parameters; `None` when both passes are empty. -/
theorem C1_fallback_selection (store : Pt) (obstacles : List Polygon) (seg : Seg) :
    is_segment_visible store obstacles seg =
      if visiblePoints store obstacles (1/2) seg ≠ [] then
        (mkLineString (visiblePoints store obstacles (1/2) seg)).map some
      else if visiblePoints store obstacles 0 seg ≠ [] then
        (mkLineString (visiblePoints store obstacles 0 seg)).map some
      else .ok none := by
  rw [issv_eq]
  by_cases h1 : visiblePoints store obstacles (1/2) seg = [] <;>
    by_cases h2 : visiblePoints store obstacles 0 seg = [] <;>
      simp [h1, h2]

/-- C4: the relaxed pass (tolerance 0) never reports fewer visible sample
points than a buffered strict pass on the same geometry; this holds both at
the 0.1 tolerance the claim names and at the 0.5 tolerance the sidewalk
code actually uses. -/
theorem C4_fallback_monotone (store : Pt) (obstacles : List Polygon) (seg : Seg) :
    (visiblePoints store obstacles (1/10) seg).Sublist (visiblePoints store obstacles 0 seg) ∧
    (visiblePoints store obstacles (1/2) seg).Sublist (visiblePoints store obstacles 0 seg) :=
  ⟨List.monotone_filter_right _ (fun p => lineOfSightClear_mono store p obstacles (1/10)),
   List.monotone_filter_right _ (fun p => lineOfSightClear_mono store p obstacles (1/2))⟩

/-- C2 (amended): a sample point passes a per-point visibility test iff its
sightline stays strictly farther than the test's tolerance from every
blocking obstacle; the tolerance is 0.1 in `is_point_visible`
(traffic/StoreVisualizer) but 0.5 in the sidewalk sampler's strict pass. -/
theorem C2_strict_test (store p : Pt) (obstacles : List Polygon) :
    (is_point_visible store p obstacles = true ↔
      ∀ obs ∈ obstacles, ¬ sqDistSegPoly (store, p) obs ≤ (1/10 : ℚ) ^ 2) ∧
    (lineOfSightClear store p obstacles (1/2) = true ↔
      ∀ obs ∈ obstacles, ¬ sqDistSegPoly (store, p) obs ≤ (1/2 : ℚ) ^ 2) := by
  constructor <;>
    simp [is_point_visible, lineOfSightClear, intersectsBuffered, List.any_eq_false]

/-- Witness for C2 at a concrete input: with no obstacles the 0.1-buffer
test reports visible. -/
theorem C2_strict_test_witness : is_point_visible (0, 0) (0, 1) [] = true :=
  (C2_strict_test (0, 0) (0, 1) []).1.mpr (by simp)

/-- C2 counterexample: the sidewalk strict pass blocks a sightline passing
0.3 from an obstacle, although the sightline does not meet the obstacle
buffered by 0.1 — so the sidewalk strict test is not the claimed
0.1-tolerance test. -/
theorem C2_buffer_mismatch :
    lineOfSightClear (0, 0) (0, 1) [c2obs] (1/2) = false ∧
    is_point_visible (0, 0) (0, 1) [c2obs] = true := by with_unfolding_all decide

/-- C3 (amended): the parameter sequence of the sidewalk/traffic samplers
has n+1 entries, is `i / n` at index `i`, is strictly increasing, and starts
at 0 and ends at 1; the StoreVisualizer sampler instead scans the two
endpoints followed by `n` interior parameters, `n + 2` scans in all. -/
theorem C3_sample_parameters (n : ℕ) (hn : 1 ≤ n) :
    (sampleParams n).length = n + 1 ∧
    (∀ i : ℕ, i ≤ n → (sampleParams n)[i]? = some ((i : ℚ) / (n : ℚ))) ∧
    List.Sorted (· < ·) (sampleParams n) ∧
    (sampleParams n)[0]? = some 0 ∧
    (sampleParams n)[n]? = some 1 ∧
    (svScanParams n).length = n + 2 := by
  have hq : (0 : ℚ) < (n : ℚ) := by exact_mod_cast hn
  have hget : ∀ i : ℕ, i ≤ n → (sampleParams n)[i]? = some ((i : ℚ) / (n : ℚ)) := by
    intro i hi
    have h1 : (List.range (n + 1))[i]? = some i := List.getElem?_range (by omega)
    rw [sampleParams, List.getElem?_map, h1]
    rfl
  have hlen : (sampleParams n).length = n + 1 := by
    rw [sampleParams, List.length_map, List.length_range]
  have hlen2 : (svScanParams n).length = n + 2 := by
    rw [svScanParams, List.length_append, List.length_map, List.length_range]
    show 2 + n = n + 2
    omega
  refine ⟨hlen, hget, ?_, ?_, ?_, hlen2⟩
  · rw [sampleParams]
    refine List.Pairwise.map _ ?_ (List.pairwise_lt_range (n + 1))
    intro i j hij
    have hij' : (i : ℚ) < (j : ℚ) := by exact_mod_cast hij
    exact div_lt_div_of_pos_right hij' hq
  · rw [hget 0 (by omega)]
    norm_num
  · rw [hget n le_rfl]
    rw [div_self (ne_of_gt hq)]

/-- Witness for C3 at the default sample count 50. -/
theorem C3_sample_parameters_witness :
    (sampleParams 50).length = 50 + 1 ∧
    (∀ i : ℕ, i ≤ 50 → (sampleParams 50)[i]? = some ((i : ℚ) / (50 : ℚ))) ∧
    List.Sorted (· < ·) (sampleParams 50) ∧
    (sampleParams 50)[0]? = some 0 ∧
    (sampleParams 50)[50]? = some 1 ∧
    (svScanParams 50).length = 50 + 2 :=
  C3_sample_parameters 50 (by norm_num)

/-- C3 counterexample: at the default sample count the StoreVisualizer
sampler does not scan `sampleCount + 1` parameters, and its parameter
sequence differs from the claimed `i / sampleCount` sequence. -/
theorem C3_sv_scan_mismatch :
    (svScanParams 50).length ≠ 50 + 1 ∧ svScanParams 50 ≠ sampleParams 50 := by
  with_unfolding_all decide

/-- C6: at the failing input (a strip obstacle leaving exactly one sample
point strictly visible) the sampler attempts `LineString` on a single
coordinate and raises, instead of treating the feature as invisible. -/
theorem C6_single_visible_raises :
    (visiblePoints (0, 0) [c6obs] (1/2) ((0, 1), (50, 1))).length = 1 ∧
    is_segment_visible (0, 0) [c6obs] ((0, 1), (50, 1)) = .error .singlePointLineString := by
  refine ⟨by with_unfolding_all decide, ?_⟩
  rw [issv_eq, if_neg (by with_unfolding_all decide)]
  simp only [mkLineString]
  rw [if_pos (by with_unfolding_all decide)]
  rfl

/-- C7 (amended): an obstacle lands in the store-building set iff its
geometry strictly contains the store point, and in the blocking set iff its
geometry does not intersect (touch or contain) the store point; the two
sets are disjoint.  (A polygon whose boundary passes exactly through the
store point is excluded from both.) -/
theorem C7_partition (obstacles : List Polygon) (sp : Pt) (o : Polygon) :
    (o ∈ store_building obstacles sp ↔ o ∈ obstacles ∧ polyContainsPoint o sp = true) ∧
    (o ∈ blocking_obstacles obstacles sp ↔ o ∈ obstacles ∧ polyIntersectsPoint o sp = false) ∧
    ¬ (o ∈ store_building obstacles sp ∧ o ∈ blocking_obstacles obstacles sp) := by
  refine ⟨by simp [store_building, List.mem_filter],
          by simp [blocking_obstacles, List.mem_filter], ?_⟩
  rintro ⟨h1, h2⟩
  simp only [store_building, List.mem_filter] at h1
  simp only [blocking_obstacles, List.mem_filter] at h2
  have hc := h1.2
  have hb := h2.2
  simp only [polyContainsPoint, Bool.and_eq_true] at hc
  simp only [Bool.not_eq_true', polyIntersectsPoint, Bool.or_eq_false_iff] at hb
  rw [hb.1] at hc
  exact Bool.false_ne_true hc.1

/-- Witness for C7: a square strictly containing the store point lands in
the store-building set and not in the blocking set. -/
theorem C7_partition_witness :
    c7square ∈ store_building [c7square] (1, 1) ∧
    c7square ∉ blocking_obstacles [c7square] (1, 1) := by
  refine ⟨(C7_partition [c7square] (1, 1) c7square).1.mpr
    ⟨by simp, by with_unfolding_all decide⟩, ?_⟩
  intro h
  have := ((C7_partition [c7square] (1, 1) c7square).2.1.mp h).2
  exact absurd this (by with_unfolding_all decide)

/-- C7 counterexample: a store point lying exactly on an obstacle's boundary
is intersected but not contained, so that obstacle is removed from the
blocking set yet never added to the store-building set — it is dropped from
both, contradicting the claimed two-way partition. -/
theorem C7_boundary_dropped :
    polyContainsPoint c7square (1, 0) = false ∧
    polyIntersectsPoint c7square (1, 0) = true ∧
    c7square ∉ store_building [c7square] (1, 0) ∧
    c7square ∉ blocking_obstacles [c7square] (1, 0) := by with_unfolding_all decide

/-- C8 (amended): `nearby_data` is the stable filter keeping exactly the
features whose planar distance to the store is at most `radius` (boundary
inclusive); a negative radius gives an empty result and empty input gives
empty output, but radius 0 keeps features passing exactly through the
store. -/
theorem C8_nearby_characterization (store : Pt) (gdf : List (List Pt)) (radius : ℚ) :
    (nearby_data store gdf radius).Sublist gdf ∧
    (∀ f, f ∈ nearby_data store gdf radius ↔
      f ∈ gdf ∧ 0 ≤ radius ∧ sqDistToPolyline store f ≤ radius ^ 2) ∧
    (radius < 0 → nearby_data store gdf radius = []) ∧
    nearby_data store [] radius = [] := by
  refine ⟨List.filter_sublist _, ?_, ?_, rfl⟩
  · intro f
    simp [nearby_data, List.mem_filter, withinRadius, and_assoc]
  · intro hr
    rw [nearby_data, List.filter_eq_nil_iff]
    intro f _
    simp [withinRadius, not_le.mpr hr]

/-- Witness for C8: the boundary scenario — a feature at planar distance
exactly 200 is kept at radius 200, one at 200.1 is not, and a negative
radius empties the result. -/
theorem C8_nearby_witness :
    c8in ∈ nearby_data (0, 0) [c8in, c8out] 200 ∧
    c8out ∉ nearby_data (0, 0) [c8in, c8out] 200 ∧
    nearby_data (0, 0) [c8in, c8out] (-1) = [] := by
  refine ⟨?_, ?_, ?_⟩
  · exact ((C8_nearby_characterization (0, 0) [c8in, c8out] 200).2.1 c8in).mpr
      ⟨by simp, by norm_num, by with_unfolding_all decide⟩
  · intro h
    have := (((C8_nearby_characterization (0, 0) [c8in, c8out] 200).2.1 c8out).mp h).2.2
    exact absurd this (by with_unfolding_all decide)
  · exact (C8_nearby_characterization (0, 0) [c8in, c8out] (-1)).2.2.1 (by norm_num)

/-- C8 counterexample: at radius 0 a feature passing exactly through the
store is kept, so "radius ≤ 0 yields an empty result" fails at radius 0. -/
theorem C8_zero_radius : nearby_data (0, 0) [c8thru] 0 ≠ [] := by
  with_unfolding_all decide

/-- C10: the truthiness guard of `fetch_obstacles` raises for a coordinate
that is exactly 0 (a valid equator/prime-meridian coordinate), and passes
when both coordinates are set and nonzero. -/
theorem C10_truthy_guard :
    (∀ lat lon : Option ℚ, lat = some 0 ∨ lon = some 0 →
      fetch_obstacles_guard lat lon = .error "Store coordinates not set") ∧
    (∀ x y : ℚ, x ≠ 0 → y ≠ 0 → fetch_obstacles_guard (some x) (some y) = .ok ()) := by
  constructor
  · rintro lat lon (rfl | rfl) <;> simp [fetch_obstacles_guard, coordFalsy]
  · intro x y hx hy
    rw [fetch_obstacles_guard, if_neg]
    simp [coordFalsy, hx, hy]

/-- Witness for C10: latitude exactly 0 raises although it is a valid
coordinate; coordinates (1, 2) pass. -/
theorem C10_truthy_guard_witness :
    fetch_obstacles_guard (some 0) (some 40) = .error "Store coordinates not set" ∧
    fetch_obstacles_guard (some 1) (some 2) = .ok () :=
  ⟨C10_truthy_guard.1 (some 0) (some 40) (Or.inl rfl),
   C10_truthy_guard.2 1 2 (by norm_num) (by norm_num)⟩

/-- Summing a function over the spatial join's matched rows groups into one
term per dataset record, weighted by its number of matching visible
segments. -/
theorem matched_sum (vs : List (List Pt)) (h : TrafficRecord → ℚ) :
    ∀ gdf : List TrafficRecord,
      ((gdf.flatMap (fun r =>
          (vs.filter (fun g => polylinesIntersect r.geom g)).map (fun _ => r))).map h).sum
        = (gdf.map (fun r =>
            ((vs.filter (fun g => polylinesIntersect r.geom g)).length : ℚ) * h r)).sum := by
  intro gdf
  induction gdf with
  | nil => simp
  | cons r gdf ih =>
    rw [List.flatMap_cons, List.map_append, List.sum_append, ih, List.map_cons, List.sum_cons]
    congr 1
    rw [List.map_map]
    have hconst : (h ∘ fun _ : List Pt => r) = fun _ : List Pt => h r := rfl
    rw [hconst, List.map_const', List.sum_replicate, nsmul_eq_mul]

/-- The traffic score in closed form: one term per dataset record, weighted
by how many visible segments it intersects, with the code's replace-zeros
semantics for the sample count. -/
theorem cct_eq (gdf : List TrafficRecord) (vs : List (List Pt)) :
    calculate_car_traffic gdf vs =
      (gdf.map (fun r =>
        ((vs.filter (fun g => polylinesIntersect r.geom g)).length : ℚ) *
          (r.trips_volume /
            (if r.trips_sample_count = 0 then 1/1000000 else r.trips_sample_count) *
            (7/5)))).sum := by
  have hfuse : ∀ M : List TrafficRecord,
      ((M.map (fun r =>
          if r.trips_sample_count = 0 then (⟨r.geom, r.trips_volume, 1/1000000⟩ : TrafficRecord)
          else r)).map
        (fun r => r.trips_volume / r.trips_sample_count * (7/5))).sum
      = (M.map (fun r => r.trips_volume /
          (if r.trips_sample_count = 0 then 1/1000000 else r.trips_sample_count) * (7/5))).sum := by
    intro M
    rw [List.map_map]
    apply congrArg List.sum
    apply List.map_congr_left
    intro r _
    by_cases hr : r.trips_sample_count = 0 <;> simp [hr, Function.comp]
  simp only [calculate_car_traffic]
  by_cases hvs : vs.isEmpty
  · rw [if_pos hvs]
    have hnil : vs = [] := List.isEmpty_iff.mp hvs
    subst hnil
    symm
    apply List.sum_eq_zero
    intro x hx
    rw [List.mem_map] at hx
    obtain ⟨r, _, rfl⟩ := hx
    simp
  · rw [if_neg hvs]
    by_cases hm : (gdf.flatMap (fun r =>
        (vs.filter (fun g => polylinesIntersect r.geom g)).map (fun _ => r))).isEmpty
    · rw [if_pos hm]
      have hnil := List.isEmpty_iff.mp hm
      symm
      rw [← matched_sum vs (fun r => r.trips_volume /
        (if r.trips_sample_count = 0 then 1/1000000 else r.trips_sample_count) * (7/5)) gdf]
      rw [hnil]
      simp
    · rw [if_neg hm, hfuse, matched_sum]

/-- C9 (amended): the traffic score is one exposure term per matching
(record, visible segment) pair, computed with zero sample counts replaced
by 1e-6 (the code's `replace(0, 1e-6)`, not `max(count, 1e-6)`); the spec's
ε-scenario (volume 14, sample count 0) contributes the finite value
19,600,000, and an empty visible set scores 0. -/
theorem C9_traffic_score :
    (∀ (gdf : List TrafficRecord) (vs : List (List Pt)),
      calculate_car_traffic gdf vs =
        (gdf.map (fun r =>
          ((vs.filter (fun g => polylinesIntersect r.geom g)).length : ℚ) *
            (r.trips_volume /
              (if r.trips_sample_count = 0 then 1/1000000 else r.trips_sample_count) *
              (7/5)))).sum) ∧
    calculate_car_traffic [c9zeroRec] [c9geom] = 19600000 ∧
    (∀ gdf : List TrafficRecord, calculate_car_traffic gdf [] = 0) := by
  refine ⟨cct_eq, ?_, fun gdf => rfl⟩
  rw [cct_eq]
  have hint : polylinesIntersect c9geom c9geom = true := by with_unfolding_all decide
  simp [c9zeroRec, hint]
  norm_num

/-- C9 counterexample: a matched record whose sample count is 5·10⁻⁷ —
positive but below ε — is divided by its own count (the code only replaces
exact zeros), yielding 2,800,000, while the claimed `max(count, ε)` formula
yields 1,400,000. -/
theorem C9_replace_not_max :
    calculate_car_traffic [c9smallRec] [c9geom] ≠ claim_exposure c9smallRec ∧
    calculate_car_traffic [c9smallRec] [c9geom] = 2800000 ∧
    claim_exposure c9smallRec = 1400000 := by
  have hint : polylinesIntersect c9geom c9geom = true := by with_unfolding_all decide
  have h1 : calculate_car_traffic [c9smallRec] [c9geom] = 2800000 := by
    rw [cct_eq]
    simp [c9smallRec, hint]
    norm_num
  have h2 : claim_exposure c9smallRec = 1400000 := by
    rw [claim_exposure]
    show (1 : ℚ) / max (1/2000000) (1/1000000) * (7/5) = 1400000
    rw [max_eq_right (by norm_num)]
    norm_num
  exact ⟨by rw [h1, h2]; norm_num, h1, h2⟩

/-- Length of the empty polyline. -/
theorem polylineLen_nil : polylineLen [] = 0 := rfl

/-- Length of a one-point polyline. -/
theorem polylineLen_single (p : Pt) : polylineLen [p] = 0 := rfl

/-- Unfolding the length of a polyline with at least two points. -/
theorem polylineLen_cons_cons (p q : Pt) (l : List Pt) :
    polylineLen (p :: q :: l) = segLen p q + polylineLen (q :: l) := rfl

/-- Clamping is the identity on [0, 1]. -/
theorem clamp01_of_mem (t : ℚ) (h0 : 0 ≤ t) (h1 : t ≤ 1) : clamp01 t = t := by
  rw [clamp01, min_eq_right h1, max_eq_right h0]

/-- Squared distance between two interpolated points of a segment. -/
theorem sqDistPP_interpolate (a b : Pt) (s t : ℚ) (hs0 : 0 ≤ s) (hs1 : s ≤ 1)
    (ht0 : 0 ≤ t) (ht1 : t ≤ 1) :
    sqDistPP (interpolate (a, b) s) (interpolate (a, b) t) = (t - s) ^ 2 * sqDistPP a b := by
  rw [interpolate, interpolate, clamp01_of_mem s hs0 hs1, clamp01_of_mem t ht0 ht1]
  simp only [pointOnSeg, sqDistPP, dot, sub]
  ring

/-- Segment lengths are nonnegative. -/
theorem segLen_nonneg (a b : Pt) : 0 ≤ segLen a b := Real.sqrt_nonneg _

/-- Distance between two interpolated points of a segment, in parameter
order, is the parameter gap times the segment length. -/
theorem segLen_interpolate (a b : Pt) (s t : ℚ) (hs0 : 0 ≤ s) (hst : s ≤ t) (ht1 : t ≤ 1) :
    segLen (interpolate (a, b) s) (interpolate (a, b) t) = ((t - s : ℚ) : ℝ) * segLen a b := by
  rw [segLen, segLen,
    sqDistPP_interpolate a b s t hs0 (le_trans hst ht1) (le_trans hs0 hst) ht1]
  push_cast
  rw [Real.sqrt_mul (by positivity), Real.sqrt_sq_eq_abs]
  have hnn : (0 : ℝ) ≤ (t : ℝ) - (s : ℝ) := by
    have := sub_nonneg.mpr hst
    exact_mod_cast this
  rw [abs_of_nonneg hnn]

/-- Telescoping: the polyline through interpolated points at increasing
parameters in [0, 1] has length (last − first) · length of the segment. -/
theorem polylineLen_interp_params (a b : Pt) :
    ∀ (ts : List ℚ) (t0 : ℚ), List.Chain' (· ≤ ·) (t0 :: ts) →
      (∀ t ∈ t0 :: ts, 0 ≤ t ∧ t ≤ 1) →
      polylineLen ((t0 :: ts).map (interpolate (a, b)))
        = (((t0 :: ts).getLast (List.cons_ne_nil t0 ts) - t0 : ℚ) : ℝ) * segLen a b := by
  intro ts
  induction ts with
  | nil =>
    intro t0 _ _
    simp [polylineLen_single, List.getLast]
  | cons t1 ts ih =>
    intro t0 hch hb
    rw [List.map_cons, List.map_cons, polylineLen_cons_cons]
    have h01 : t0 ≤ t1 := (List.chain'_cons.mp hch).1
    have hb0 := hb t0 (by simp)
    have hb1 := hb t1 (by simp)
    rw [segLen_interpolate a b t0 t1 hb0.1 h01 hb1.2]
    have hch' : List.Chain' (· ≤ ·) (t1 :: ts) := (List.chain'_cons.mp hch).2
    have hb' : ∀ t ∈ t1 :: ts, 0 ≤ t ∧ t ≤ 1 := by
      intro t ht
      exact hb t (by simp at ht ⊢; exact Or.inr ht)
    have hih := ih t1 hch' hb'
    rw [List.map_cons] at hih
    rw [hih]
    have hlast : (t0 :: t1 :: ts).getLast (List.cons_ne_nil _ _)
        = (t1 :: ts).getLast (List.cons_ne_nil _ _) :=
      List.getLast_cons (List.cons_ne_nil t1 ts)
    rw [hlast]
    push_cast
    ring

/-- A sorted parameter list within [0, 1] that starts at 0 and ends at 1
interpolates to a polyline of exactly the full segment length. -/
theorem polylineLen_span (a b : Pt) (ts : List ℚ) (hch : List.Chain' (· ≤ ·) ts)
    (hb : ∀ t ∈ ts, 0 ≤ t ∧ t ≤ 1) (h0 : ts.head? = some 0) (h1 : ts.getLast? = some 1) :
    polylineLen (ts.map (interpolate (a, b))) = segLen a b := by
  cases ts with
  | nil => simp at h0
  | cons t0 rest =>
    have ht0 : t0 = 0 := by simpa using h0
    rw [polylineLen_interp_params a b rest t0 hch hb]
    have hne : t0 :: rest ≠ [] := List.cons_ne_nil t0 rest
    have hl : (t0 :: rest).getLast hne = 1 := by
      rw [List.getLast?_eq_getLast _ hne] at h1
      simpa using h1
    rw [hl, ht0]
    norm_num

/-- The visible points are the interpolations of the visible parameters. -/
theorem visiblePoints_as_params (store : Pt) (obstacles : List Polygon) (tol : ℚ) (seg : Seg) :
    visiblePoints store obstacles tol seg
      = ((sampleParams num_samples).filter
          (fun t => lineOfSightClear store (interpolate seg t) obstacles tol)).map
          (interpolate seg) := by
  rw [visiblePoints, samplePoints, List.filter_map]
  rfl

/-- All sample parameters lie in [0, 1]. -/
theorem sampleParams_bounds : ∀ t ∈ sampleParams num_samples, 0 ≤ t ∧ t ≤ 1 := by
  with_unfolding_all decide

/-- The sample parameters are weakly increasing. -/
theorem sampleParams_sorted_le : List.Pairwise (· ≤ ·) (sampleParams num_samples) := by
  with_unfolding_all decide

/-- The polyline built from any pass's visible points is never longer than
the sampled segment. -/
theorem visiblePoints_len_le (store : Pt) (obstacles : List Polygon) (tol : ℚ) (a b : Pt) :
    polylineLen (visiblePoints store obstacles tol (a, b)) ≤ segLen a b := by
  rw [visiblePoints_as_params]
  have hsub : ((sampleParams num_samples).filter
      (fun t => lineOfSightClear store (interpolate (a, b) t) obstacles tol)).Sublist
      (sampleParams num_samples) := List.filter_sublist _
  have hpair := List.Pairwise.sublist hsub sampleParams_sorted_le
  have hbnd : ∀ t ∈ (sampleParams num_samples).filter
      (fun t => lineOfSightClear store (interpolate (a, b) t) obstacles tol),
      0 ≤ t ∧ t ≤ 1 := fun t ht => sampleParams_bounds t (hsub.subset ht)
  rcases hts : (sampleParams num_samples).filter
      (fun t => lineOfSightClear store (interpolate (a, b) t) obstacles tol) with _ | ⟨t0, rest⟩
  · rw [List.map_nil, polylineLen_nil]
    exact segLen_nonneg a b
  · rw [hts] at hpair hbnd
    rw [polylineLen_interp_params a b rest t0 hpair.chain' hbnd]
    have hlastmem := List.getLast_mem (List.cons_ne_nil t0 rest)
    have hlast1 := (hbnd _ hlastmem).2
    have ht00 := (hbnd t0 (by simp)).1
    have hco : (((t0 :: rest).getLast (List.cons_ne_nil t0 rest) - t0 : ℚ) : ℝ) ≤ 1 := by
      have : ((t0 :: rest).getLast (List.cons_ne_nil t0 rest) - t0 : ℚ) ≤ 1 := by linarith
      exact_mod_cast this
    exact mul_le_of_le_one_left (segLen_nonneg a b) hco

/-- C5 (amended): whenever `is_segment_visible` returns a visible
sub-geometry, its length is at most the length of the original feature
(equality is possible without all sample points being visible). -/
theorem C5_truncation_le (store : Pt) (obstacles : List Polygon) (a b : Pt) (ps : List Pt)
    (h : is_segment_visible store obstacles (a, b) = .ok (some ps)) :
    polylineLen ps ≤ segLen a b := by
  rw [issv_eq] at h
  by_cases h1 : visiblePoints store obstacles (1/2) (a, b) = []
  · rw [if_pos h1] at h
    by_cases h2 : visiblePoints store obstacles 0 (a, b) = []
    · rw [if_pos h2] at h
      exact absurd h (by simp)
    · rw [if_neg h2] at h
      simp only [mkLineString] at h
      by_cases h3 : (visiblePoints store obstacles 0 (a, b)).length = 1
      · rw [if_pos h3] at h
        exact absurd h (by simp [Except.map])
      · rw [if_neg h3] at h
        simp only [Except.map] at h
        have hps : visiblePoints store obstacles 0 (a, b) = ps := by
          injection h with h'
          injection h' with h''
        rw [← hps]
        exact visiblePoints_len_le store obstacles 0 a b
  · rw [if_neg h1] at h
    simp only [mkLineString] at h
    by_cases h3 : (visiblePoints store obstacles (1/2) (a, b)).length = 1
    · rw [if_pos h3] at h
      exact absurd h (by simp [Except.map])
    · rw [if_neg h3] at h
      simp only [Except.map] at h
      have hps : visiblePoints store obstacles (1/2) (a, b) = ps := by
        injection h with h'
        injection h' with h''
      rw [← hps]
      exact visiblePoints_len_le store obstacles (1/2) a b

/-- Witness for C5 at the concrete configuration: the strict pass keeps 34
of the 51 sample points and the truncated length is bounded by the
feature length. -/
theorem C5_truncation_le_witness :
    polylineLen (visiblePoints s5store [s5obs] (1/2) (s5a, s5b)) ≤ segLen s5a s5b := by
  apply C5_truncation_le s5store [s5obs] s5a s5b
  rw [issv_eq, if_neg (by with_unfolding_all decide)]
  simp only [mkLineString]
  rw [if_neg (by with_unfolding_all decide)]
  rfl

/-- C5 counterexample: at the concrete configuration both endpoints are
visible but the central samples are blocked, and the truncated visible
sub-geometry of the straight feature has exactly the full feature length —
equality holds although not every sample point is visible. -/
theorem C5_equality_without_full_visibility :
    is_segment_visible s5store [s5obs] (s5a, s5b)
      = .ok (some (visiblePoints s5store [s5obs] (1/2) (s5a, s5b))) ∧
    polylineLen (visiblePoints s5store [s5obs] (1/2) (s5a, s5b)) = segLen s5a s5b ∧
    lineOfSightClear s5store (interpolate (s5a, s5b) (25/50)) [s5obs] (1/2) = false := by
  refine ⟨?_, ?_, by with_unfolding_all decide⟩
  · rw [issv_eq, if_neg (by with_unfolding_all decide)]
    simp only [mkLineString]
    rw [if_neg (by with_unfolding_all decide)]
    rfl
  · rw [visiblePoints_as_params]
    apply polylineLen_span
    · exact (List.Pairwise.sublist (List.filter_sublist _) sampleParams_sorted_le).chain'
    · intro t ht
      exact sampleParams_bounds t ((List.filter_sublist _).subset ht)
    · with_unfolding_all decide
    · with_unfolding_all decide

end StoreViz
